import Mathlib

/-!
Shallow embedding of `src/CorrectionStreamlitBtcOption.py`, a single-file
Streamlit dashboard that lists Deribit BTC option instruments, filters the
ones expiring within the next 7 days, fetches a book summary per instrument,
and classifies each row into a writer/buyer label.

Modelling conventions:
* Numeric JSON values (prices, IV, open interest, strikes, timestamps) are
  embedded as `ℚ`; the script only compares them with `<`, `≤`, `>`, so the
  exact carrier does not matter beyond being a linear order with the numerals.
* A JSON field that may be absent (or null / NaN in pandas) is `Option ℚ`;
  `pd.notnull(x)` is `Option.isSome`, and the `x if pd.notnull(x) else 0`
  pattern is `Option.getD x 0`.
* `datetime.utcnow()` is an explicit parameter `current_time : ℚ` (seconds
  since the epoch); `timedelta` of 7 days is `7 * 86400` seconds and
  `expiration_timestamp / 1000` is exact division in `ℚ`.
* Network and JSON decoding are an oracle `fetch : String → Option Summary`:
  `none` models a `ValueError` from `response.json()` (decode failure), and
  `Summary.noResult` a decoded body without a `result` key.  `st.error` /
  `st.warning` side effects are modelled by returning error strings and by
  the `Render` sum for the top-level flow (the `response.text` part of the
  error message and the `%Y-%m-%d` date formatting are display detail and
  are not modelled).
-/

namespace StreamBtc

/-- One instrument as returned by `get_instruments` (the fields the script
reads: `instrument_name`, `strike`, `option_type`, `expiration_timestamp`
in epoch milliseconds). -/
structure Instrument where
  instrument_name : String
  strike : ℚ
  option_type : String
  expiration_timestamp : ℚ
  deriving DecidableEq, Repr

/-- One element of the `result` list of `get_book_summary_by_instrument`:
the three fields the script reads via `result.get(key, None)`. -/
structure BookResult where
  open_interest : Option ℚ
  iv : Option ℚ
  last : Option ℚ
  deriving DecidableEq, Repr

/-- A decoded book-summary JSON body: either it has a `result` key holding a
list, or it decodes but lacks `result`. -/
inductive Summary where
  | withResult (rs : List BookResult)
  | noResult
  deriving DecidableEq, Repr

/-- A row of the dataframe built in `create_options_df` (keys `Instrument`,
`Expiry`, `Strike Price`, `Option Type`, `Open Interest`, `IV Change`,
`Price Change`; `Expiry` is kept as the timestamp in seconds rather than its
`%Y-%m-%d` rendering). -/
structure DataRow where
  instrument : String
  expirySeconds : ℚ
  strikePrice : ℚ
  optionType : String
  openInterest : Option ℚ
  ivChange : Option ℚ
  priceChange : Option ℚ
  deriving DecidableEq, Repr

/-- A dataframe row after `df.apply(identify_writers_with_iv, axis=1)` has
been assigned into the `Writer Type` column. -/
structure AnnotatedRow where
  row : DataRow
  writerType : String
  deriving DecidableEq, Repr

/-- Function `identify_writers_with_iv` (lines 58-73 of the script), verbatim:
null fields default to 0, then a nested if/elif on the option type and the
signs of the three fields picks one of five string labels. -/
def identify_writers_with_iv (row : DataRow) : String :=
  let price_change := row.priceChange.getD 0
  let iv_change := row.ivChange.getD 0
  let open_interest := row.openInterest.getD 0
  if row.optionType = "Call" then
    if price_change < 0 ∧ iv_change < 0 ∧ open_interest > 0 then
      "Call Writers (IV Falling)"
    else if price_change > 0 ∧ iv_change > 0 ∧ open_interest < 0 then
      "Call Buyers (IV Rising)"
    else
      "Neutral"
  else if row.optionType = "Put" then
    if price_change > 0 ∧ iv_change < 0 ∧ open_interest > 0 then
      "Put Writers (IV Falling)"
    else if price_change < 0 ∧ iv_change > 0 ∧ open_interest < 0 then
      "Put Buyers (IV Rising)"
    else
      "Neutral"
  else
    "Neutral"

/-- Function `filter_weekly_expiry_options` (lines 44-56): keep, in order, the options
whose expiry instant (epoch ms divided by 1000) lies between `current_time`
and `current_time + 7 days`, both bounds inclusive. -/
def filter_weekly_expiry_options (current_time : ℚ) :
    List Instrument → List Instrument
  | [] => []
  | option :: rest =>
    let expiry_date := option.expiration_timestamp / 1000
    if current_time ≤ expiry_date ∧ expiry_date ≤ current_time + 7 * 86400 then
      option :: filter_weekly_expiry_options current_time rest
    else
      filter_weekly_expiry_options current_time rest

/-- The spec-side window predicate (§4.1 / §8 of the spec):
`now <= expiration <= now + 7 days`, endpoints included, on the instant
obtained from the epoch-millisecond timestamp. -/
def inExpiryWindow (now : ℚ) (o : Instrument) : Prop :=
  now ≤ o.expiration_timestamp / 1000 ∧
    o.expiration_timestamp / 1000 ≤ now + 7 * 86400

instance (now : ℚ) (o : Instrument) : Decidable (inExpiryWindow now o) := by
  unfold inExpiryWindow
  exact instDecidableAnd

/-- Function `get_book_summary` (lines 11-20): `fetch` stands for issuing the GET and
decoding `response.json()`; a `ValueError` (`fetch` returns `none`) is
surfaced via `st.error` — modelled as the returned message list — and the
function returns `None`. -/
def get_book_summary (fetch : String → Option Summary)
    (instrument_name : String) : Option Summary × List String :=
  match fetch instrument_name with
  | some s => (some s, [])
  | none => (none, ["Error decoding JSON response for " ++ instrument_name])

/-- The empty-dict fallback taken when the result list is empty: every
subsequent `result.get(key, None)` on it yields `None`. -/
def emptyBookResult : BookResult :=
  { open_interest := none, iv := none, last := none }

/-- The dict appended to `data` in the loop body of `create_options_df`
(lines 92-100), for one option and the selected book result. -/
def mkDataRow (option : Instrument) (result : BookResult) : DataRow :=
  { instrument := option.instrument_name
    expirySeconds := option.expiration_timestamp / 1000
    strikePrice := option.strike
    optionType := if option.option_type = "call" then "Call" else "Put"
    openInterest := result.open_interest
    ivChange := result.iv
    priceChange := result.last }

/-- The `for option in options` loop of `create_options_df` (lines 79-100):
returns the `data` list and the error messages emitted by the per-instrument
`get_book_summary` calls, in order.  A row is appended only when the summary
is truthy and has a `result` key;
otherwise the instrument is silently skipped here (any error was already
emitted inside `get_book_summary`). -/
def collectRows (fetch : String → Option Summary) :
    List Instrument → List DataRow × List String
  | [] => ([], [])
  | option :: rest =>
    let summary := get_book_summary fetch option.instrument_name
    let tail := collectRows fetch rest
    match summary.1 with
    | some (Summary.withResult rs) =>
        (mkDataRow option (rs.headD emptyBookResult) :: tail.1,
          summary.2 ++ tail.2)
    | _ => (tail.1, summary.2 ++ tail.2)

/-- Function `create_options_df` (lines 76-108): build the rows, then
the `Writer Type` column assignment via `df.apply` annotates
each row with its label.  Returns the annotated rows and the error messages. -/
def create_options_df (fetch : String → Option Summary)
    (options : List Instrument) : List AnnotatedRow × List String :=
  let (rows, errs) := collectRows fetch options
  (rows.map (fun r => ⟨r, identify_writers_with_iv r⟩), errs)

/-- The terminal state of the top-level script (lines 114-150): the table and
charts (carrying the dataframe and any per-instrument errors), the
`st.warning("No weekly expiring options found.")` branch, or the
`st.error("Failed to fetch BTC options from Deribit.")` branch. -/
inductive Render where
  | table (rows : List AnnotatedRow) (errors : List String)
  | noWeeklyWarning
  | fetchError
  deriving DecidableEq, Repr

/-- The top-level dashboard flow (lines 114-150), with the lister result
`btc_options`, the clock and the network oracle as parameters:
`if btc_options:` (list truthiness) guards the whole pipeline, then
`if len(weekly_options) > 0:` selects table rendering versus the warning. -/
def dashboard (fetch : String → Option Summary) (now : ℚ)
    (btc_options : List Instrument) : Render :=
  if btc_options ≠ [] then
    let weekly_options := filter_weekly_expiry_options now btc_options
    if weekly_options.length > 0 then
      let df := create_options_df fetch weekly_options
      Render.table df.1 df.2
    else
      Render.noWeeklyWarning
  else
    Render.fetchError

/-- Integer sign of a rational: the classifier only consumes its numeric
inputs through this. -/
def rsign (q : ℚ) : Int :=
  if q < 0 then -1 else if 0 < q then 1 else 0

section ClassifierLemmas

/-- Full characterization of the classifier as a rule table: each of the four
directional labels is returned exactly when its sign conditions hold, and
`Neutral` exactly otherwise. -/
lemma identify_rule_table (row : DataRow) :
    (identify_writers_with_iv row = "Call Writers (IV Falling)" ↔
      row.optionType = "Call" ∧ row.priceChange.getD 0 < 0 ∧
        row.ivChange.getD 0 < 0 ∧ 0 < row.openInterest.getD 0) ∧
    (identify_writers_with_iv row = "Call Buyers (IV Rising)" ↔
      row.optionType = "Call" ∧ 0 < row.priceChange.getD 0 ∧
        0 < row.ivChange.getD 0 ∧ row.openInterest.getD 0 < 0) ∧
    (identify_writers_with_iv row = "Put Writers (IV Falling)" ↔
      row.optionType = "Put" ∧ 0 < row.priceChange.getD 0 ∧
        row.ivChange.getD 0 < 0 ∧ 0 < row.openInterest.getD 0) ∧
    (identify_writers_with_iv row = "Put Buyers (IV Rising)" ↔
      row.optionType = "Put" ∧ row.priceChange.getD 0 < 0 ∧
        0 < row.ivChange.getD 0 ∧ row.openInterest.getD 0 < 0) ∧
    (identify_writers_with_iv row = "Neutral" ↔
      ¬(row.optionType = "Call" ∧ row.priceChange.getD 0 < 0 ∧
          row.ivChange.getD 0 < 0 ∧ 0 < row.openInterest.getD 0) ∧
      ¬(row.optionType = "Call" ∧ 0 < row.priceChange.getD 0 ∧
          0 < row.ivChange.getD 0 ∧ row.openInterest.getD 0 < 0) ∧
      ¬(row.optionType = "Put" ∧ 0 < row.priceChange.getD 0 ∧
          row.ivChange.getD 0 < 0 ∧ 0 < row.openInterest.getD 0) ∧
      ¬(row.optionType = "Put" ∧ row.priceChange.getD 0 < 0 ∧
          0 < row.ivChange.getD 0 ∧ row.openInterest.getD 0 < 0)) := by
  simp only [identify_writers_with_iv, gt_iff_lt]
  split_ifs with hC h1 h2 hP h3 h4 <;>
    refine ⟨?_, ?_, ?_, ?_, ?_⟩ <;>
      simp_all <;> intros <;> first | tauto | linarith

/-- If `rsign a = rsign b` then `a` and `b` compare to zero identically. -/
lemma rsign_eq_cmp {a b : ℚ} (h : rsign a = rsign b) :
    (a < 0 ↔ b < 0) ∧ (0 < a ↔ 0 < b) := by
  unfold rsign at h
  split_ifs at h <;>
    first
      | (exfalso; omega)
      | (constructor <;> constructor <;> intro h2 <;>
          first | assumption | linarith)

/-- The accumulating loop of `filter_weekly_expiry_options` is `List.filter`
over the spec window predicate. -/
lemma filter_weekly_eq_filter (now : ℚ) (l : List Instrument) :
    filter_weekly_expiry_options now l
      = l.filter (fun o => decide (inExpiryWindow now o)) := by
  induction l with
  | nil => rfl
  | cons o rest ih =>
    simp only [filter_weekly_expiry_options, List.filter_cons,
      decide_eq_true_eq, inExpiryWindow, ih]

/-- A row with type `Put` can only get a Put label or `Neutral`. -/
lemma identify_put_labels (row : DataRow) (h : row.optionType = "Put") :
    identify_writers_with_iv row ∈
      ["Put Writers (IV Falling)", "Put Buyers (IV Rising)", "Neutral"] := by
  simp only [identify_writers_with_iv, h]
  split_ifs <;> simp_all

/-- A row whose three numeric fields are all absent defaults them all to 0,
so no strict sign condition holds and the label is `Neutral`, whatever the
option type. -/
lemma identify_all_none_neutral (o : Instrument) :
    identify_writers_with_iv (mkDataRow o emptyBookResult) = "Neutral" := by
  simp [identify_writers_with_iv, mkDataRow, emptyBookResult]

/-- Every row produced by the `create_options_df` loop is `mkDataRow` of
some input instrument and some book result. -/
lemma collectRows_rows_shape (fetch : String → Option Summary)
    (options : List Instrument) :
    ∀ r ∈ (collectRows fetch options).1,
      ∃ o, o ∈ options ∧ ∃ res : BookResult, r = mkDataRow o res := by
  induction options with
  | nil =>
    intro r hr
    simp [collectRows] at hr
  | cons o rest ih =>
    intro r hr
    cases hf : fetch o.instrument_name with
    | none =>
      simp only [collectRows, get_book_summary, hf] at hr
      obtain ⟨o2, ho2, res, hres⟩ := ih r hr
      exact ⟨o2, List.mem_cons_of_mem _ ho2, res, hres⟩
    | some s =>
      cases s with
      | withResult rs =>
        simp only [collectRows, get_book_summary, hf, List.mem_cons] at hr
        rcases hr with hr | hr
        · exact ⟨o, List.mem_cons_self o rest,
            rs.headD emptyBookResult, hr⟩
        · obtain ⟨o2, ho2, res, hres⟩ := ih r hr
          exact ⟨o2, List.mem_cons_of_mem _ ho2, res, hres⟩
      | noResult =>
        simp only [collectRows, get_book_summary, hf] at hr
        obtain ⟨o2, ho2, res, hres⟩ := ih r hr
        exact ⟨o2, List.mem_cons_of_mem _ ho2, res, hres⟩

end ClassifierLemmas

section ClaimTheorems

/-- C1: for every row, `identify_writers_with_iv` returns exactly the label
of the spec rule table — each of the four directional labels holds iff its
(option type, sign of price change, sign of IV change, sign of open
interest) conditions all hold, and `Neutral` holds iff none of the four
condition sets does (so all boundary/zero cases and unexpected option-type
strings are `Neutral`). -/
theorem identify_writers_matches_rule_table (row : DataRow) :
    (identify_writers_with_iv row = "Call Writers (IV Falling)" ↔
      row.optionType = "Call" ∧ row.priceChange.getD 0 < 0 ∧
        row.ivChange.getD 0 < 0 ∧ 0 < row.openInterest.getD 0) ∧
    (identify_writers_with_iv row = "Call Buyers (IV Rising)" ↔
      row.optionType = "Call" ∧ 0 < row.priceChange.getD 0 ∧
        0 < row.ivChange.getD 0 ∧ row.openInterest.getD 0 < 0) ∧
    (identify_writers_with_iv row = "Put Writers (IV Falling)" ↔
      row.optionType = "Put" ∧ 0 < row.priceChange.getD 0 ∧
        row.ivChange.getD 0 < 0 ∧ 0 < row.openInterest.getD 0) ∧
    (identify_writers_with_iv row = "Put Buyers (IV Rising)" ↔
      row.optionType = "Put" ∧ row.priceChange.getD 0 < 0 ∧
        0 < row.ivChange.getD 0 ∧ row.openInterest.getD 0 < 0) ∧
    (identify_writers_with_iv row = "Neutral" ↔
      ¬(row.optionType = "Call" ∧ row.priceChange.getD 0 < 0 ∧
          row.ivChange.getD 0 < 0 ∧ 0 < row.openInterest.getD 0) ∧
      ¬(row.optionType = "Call" ∧ 0 < row.priceChange.getD 0 ∧
          0 < row.ivChange.getD 0 ∧ row.openInterest.getD 0 < 0) ∧
      ¬(row.optionType = "Put" ∧ 0 < row.priceChange.getD 0 ∧
          row.ivChange.getD 0 < 0 ∧ 0 < row.openInterest.getD 0) ∧
      ¬(row.optionType = "Put" ∧ row.priceChange.getD 0 < 0 ∧
          0 < row.ivChange.getD 0 ∧ row.openInterest.getD 0 < 0)) :=
  identify_rule_table row

/-- C2: the expiry filter is exactly the order-preserving subsequence of its
input selected by the inclusive window `now ≤ expiration ≤ now + 7 days` on
the instant obtained from the epoch-millisecond timestamp: it equals
`List.filter` of the window predicate, is a sublist of the input (so order
is preserved and no instrument is altered), membership is characterized by
the window with both endpoints included, and empty input gives empty
output. -/
theorem filter_weekly_expiry_options_spec (now : ℚ) (options : List Instrument) :
    filter_weekly_expiry_options now options
        = options.filter (fun o => decide (inExpiryWindow now o)) ∧
      (filter_weekly_expiry_options now options).Sublist options ∧
      (∀ o, o ∈ filter_weekly_expiry_options now options ↔
        o ∈ options ∧ inExpiryWindow now o) ∧
      filter_weekly_expiry_options now ([] : List Instrument) = [] := by
  refine ⟨filter_weekly_eq_filter now options, ?_, ?_, rfl⟩
  · rw [filter_weekly_eq_filter]
    exact List.filter_sublist options
  · intro o
    rw [filter_weekly_eq_filter, List.mem_filter, decide_eq_true_eq]

/-- Concrete row for the C3 example: Call, price change 5, IV change 3,
open interest 100. -/
def rowC3 : DataRow :=
  { instrument := "BTC-TEST", expirySeconds := 0, strikePrice := 0,
    optionType := "Call", openInterest := some 100, ivChange := some 3,
    priceChange := some 5 }

/-- C3: when the open-interest field is non-negative (absent counting as 0),
the classifier never returns a buyer label, and on the concrete row
(Call, price change 5, IV change 3, open interest 100) it returns
`Neutral`. -/
theorem identify_nonneg_oi_never_buyers (row : DataRow)
    (h : 0 ≤ row.openInterest.getD 0) :
    identify_writers_with_iv row ≠ "Call Buyers (IV Rising)" ∧
      identify_writers_with_iv row ≠ "Put Buyers (IV Rising)" ∧
      identify_writers_with_iv rowC3 = "Neutral" := by
  obtain ⟨-, hcb, -, hpb, -⟩ := identify_rule_table row
  refine ⟨?_, ?_, by decide⟩
  · intro he
    exact absurd (hcb.mp he).2.2.2 (not_lt.mpr h)
  · intro he
    exact absurd (hpb.mp he).2.2.2 (not_lt.mpr h)

/-- Witness for C3 at the concrete row itself. -/
theorem identify_nonneg_oi_never_buyers_witness :
    identify_writers_with_iv rowC3 ≠ "Call Buyers (IV Rising)" ∧
      identify_writers_with_iv rowC3 ≠ "Put Buyers (IV Rising)" ∧
      identify_writers_with_iv rowC3 = "Neutral" :=
  identify_nonneg_oi_never_buyers rowC3 (by decide)

/-- C4: an absent price-change, IV-change or open-interest field is
classified exactly like the value 0 — replacing any one of the three
fields, or all of them, by `some` of its zero-defaulted value leaves the
output of the classifier unchanged. -/
theorem identify_missing_fields_as_zero (row : DataRow) :
    identify_writers_with_iv row = identify_writers_with_iv
        { row with priceChange := some (row.priceChange.getD 0) } ∧
      identify_writers_with_iv row = identify_writers_with_iv
        { row with ivChange := some (row.ivChange.getD 0) } ∧
      identify_writers_with_iv row = identify_writers_with_iv
        { row with openInterest := some (row.openInterest.getD 0) } ∧
      identify_writers_with_iv row = identify_writers_with_iv
        { row with priceChange := some (row.priceChange.getD 0),
                   ivChange := some (row.ivChange.getD 0),
                   openInterest := some (row.openInterest.getD 0) } := by
  obtain ⟨i, e, s, t, oi, iv, pc⟩ := row
  refine ⟨?_, ?_, ?_, ?_⟩ <;> cases oi <;> cases iv <;> cases pc <;> rfl

/-- C5: the classifier is total — on every row (any option-type string, any
present or absent numeric fields) it returns exactly one of the five fixed
labels, and its value depends on nothing but the row. -/
theorem identify_writers_total (row : DataRow) :
    identify_writers_with_iv row ∈
      ["Call Writers (IV Falling)", "Call Buyers (IV Rising)",
        "Put Writers (IV Falling)", "Put Buyers (IV Rising)", "Neutral"] := by
  simp only [identify_writers_with_iv]
  split_ifs <;> simp

/-- C6: the label is a function of the option type and the three sign
values only — rows agreeing on option type and on the signs of the
zero-defaulted price change, IV change and open interest get the same
label (and, the function being pure, identical inputs trivially give
identical outputs). -/
theorem identify_writers_sign_determined (r1 r2 : DataRow)
    (hty : r1.optionType = r2.optionType)
    (hp : rsign (r1.priceChange.getD 0) = rsign (r2.priceChange.getD 0))
    (hi : rsign (r1.ivChange.getD 0) = rsign (r2.ivChange.getD 0))
    (ho : rsign (r1.openInterest.getD 0) = rsign (r2.openInterest.getD 0)) :
    identify_writers_with_iv r1 = identify_writers_with_iv r2 := by
  obtain ⟨hp1, hp2⟩ := rsign_eq_cmp hp
  obtain ⟨hi1, hi2⟩ := rsign_eq_cmp hi
  obtain ⟨ho1, ho2⟩ := rsign_eq_cmp ho
  simp only [identify_writers_with_iv, gt_iff_lt, hty, hp1, hp2, hi1, hi2,
    ho1, ho2]

/-- Two concrete rows with equal option type and sign pattern but different
magnitudes, for the C6 witness. -/
def rowC6a : DataRow :=
  { instrument := "A", expirySeconds := 0, strikePrice := 0,
    optionType := "Call", openInterest := some 10, ivChange := some (-2),
    priceChange := some (-5) }

/-- Second concrete row for the C6 witness. -/
def rowC6b : DataRow :=
  { instrument := "B", expirySeconds := 7, strikePrice := 1,
    optionType := "Call", openInterest := some 3, ivChange := some (-7),
    priceChange := some (-1) }

/-- Witness for C6 on two sign-equivalent concrete rows. -/
theorem identify_writers_sign_determined_witness :
    identify_writers_with_iv rowC6a = identify_writers_with_iv rowC6b :=
  identify_writers_sign_determined rowC6a rowC6b rfl (by decide) (by decide)
    (by decide)

/-- C7: when the book-summary fetch fails (JSON decode failure) for exactly
one of three instruments, that instrument is skipped, processing continues,
and the output holds exactly 2 annotated rows — in order, those of the two
surviving instruments — together with exactly the decode-error message for
the failed instrument. -/
theorem create_options_df_skips_failed_fetch
    (fetch : String → Option Summary) (a b c : Instrument)
    (rsa rsc : List BookResult)
    (ha : fetch a.instrument_name = some (Summary.withResult rsa))
    (hb : fetch b.instrument_name = none)
    (hc : fetch c.instrument_name = some (Summary.withResult rsc)) :
    (create_options_df fetch [a, b, c]).1.length = 2 ∧
      (create_options_df fetch [a, b, c]).1.map (fun ar => ar.row.instrument)
          = [a.instrument_name, c.instrument_name] ∧
      (create_options_df fetch [a, b, c]).2
          = ["Error decoding JSON response for " ++ b.instrument_name] := by
  simp [create_options_df, collectRows, get_book_summary, ha, hb, hc,
    mkDataRow]

/-- Instrument used in the C7 witness whose summary decodes. -/
def instA : Instrument :=
  { instrument_name := "BTC-A", strike := 50000, option_type := "call",
    expiration_timestamp := 86400000 }

/-- Instrument used in the C7 witness whose summary fetch fails. -/
def instB : Instrument :=
  { instrument_name := "BTC-B", strike := 60000, option_type := "put",
    expiration_timestamp := 172800000 }

/-- Instrument used in the C7 witness whose summary decodes. -/
def instC : Instrument :=
  { instrument_name := "BTC-C", strike := 70000, option_type := "call",
    expiration_timestamp := 259200000 }

/-- Oracle for the C7 witness: decoding fails exactly for `BTC-B`. -/
def fetchC7 : String → Option Summary := fun n =>
  if n = "BTC-B" then none else some (Summary.withResult [])

/-- Witness for C7 on three concrete instruments with one failing fetch. -/
theorem create_options_df_skips_failed_fetch_witness :
    (create_options_df fetchC7 [instA, instB, instC]).1.length = 2 ∧
      (create_options_df fetchC7 [instA, instB, instC]).1.map
          (fun ar => ar.row.instrument)
          = [instA.instrument_name, instC.instrument_name] ∧
      (create_options_df fetchC7 [instA, instB, instC]).2
          = ["Error decoding JSON response for " ++ instB.instrument_name] :=
  create_options_df_skips_failed_fetch fetchC7 instA instB instC [] []
    rfl rfl rfl

/-- C8 counterexample: on an empty instrument list the dashboard ends in the
`st.error` branch (`"Failed to fetch BTC options from Deribit."`), which is
not the `st.warning` "no data" state the claim describes. -/
theorem dashboard_empty_list_counterexample :
    dashboard (fun _ => none) 0 ([] : List Instrument) = Render.fetchError ∧
      Render.fetchError ≠ Render.noWeeklyWarning :=
  ⟨rfl, fun h => Render.noConfusion h⟩

/-- C8 (amended): on an empty instrument list, for every oracle and clock,
the pipeline short-circuits to the fetch-error state — the expiry filter and
the classifier are never invoked and no table or charts are rendered — and
the surfaced message is an error, not a warning. -/
theorem dashboard_empty_flow (fetch : String → Option Summary) (now : ℚ) :
    dashboard fetch now ([] : List Instrument) = Render.fetchError :=
  rfl

/-- C9: an instrument whose raw `option_type` is anything but the exact
string `"call"` gets Option Type `"Put"` in its row, and such a row can only
be labelled through the Put branches or `Neutral`; moreover every annotated
row of `create_options_df` is built this way (`mkDataRow` plus the
classifier) from some input instrument. -/
theorem create_options_df_noncall_is_put (fetch : String → Option Summary)
    (options : List Instrument) (o : Instrument) (res : BookResult)
    (h : o.option_type ≠ "call") :
    (mkDataRow o res).optionType = "Put" ∧
      identify_writers_with_iv (mkDataRow o res) ∈
        ["Put Writers (IV Falling)", "Put Buyers (IV Rising)", "Neutral"] ∧
      ∀ ar ∈ (create_options_df fetch options).1,
        ∃ o2, o2 ∈ options ∧ ∃ res2 : BookResult,
          ar = ⟨mkDataRow o2 res2,
            identify_writers_with_iv (mkDataRow o2 res2)⟩ := by
  have hput : (mkDataRow o res).optionType = "Put" := by
    simp [mkDataRow, h]
  refine ⟨hput, identify_put_labels _ hput, ?_⟩
  intro ar har
  simp only [create_options_df, List.mem_map] at har
  obtain ⟨r, hr, rfl⟩ := har
  obtain ⟨o2, ho2, res2, rfl⟩ := collectRows_rows_shape fetch options r hr
  exact ⟨o2, ho2, res2, rfl⟩

/-- Instrument with a malformed `option_type`, for the C9 witness. -/
def instOdd : Instrument :=
  { instrument_name := "BTC-X", strike := 1, option_type := "banana",
    expiration_timestamp := 0 }

/-- Witness for C9 at a concrete malformed instrument. -/
theorem create_options_df_noncall_is_put_witness :
    (mkDataRow instOdd emptyBookResult).optionType = "Put" ∧
      identify_writers_with_iv (mkDataRow instOdd emptyBookResult) ∈
        ["Put Writers (IV Falling)", "Put Buyers (IV Rising)", "Neutral"] ∧
      ∀ ar ∈ (create_options_df (fun _ => none) [instOdd]).1,
        ∃ o2, o2 ∈ [instOdd] ∧ ∃ res2 : BookResult,
          ar = ⟨mkDataRow o2 res2,
            identify_writers_with_iv (mkDataRow o2 res2)⟩ :=
  create_options_df_noncall_is_put (fun _ => none) [instOdd] instOdd
    emptyBookResult (by decide)

/-- C10: a summary that decodes with an empty `result` list still yields a
row — with open interest, IV change and price change all absent, hence
labelled `Neutral` — whereas a decode failure or a decoded body without a
`result` key drops the instrument entirely. -/
theorem create_options_df_empty_result_neutral
    (fetch1 fetch2 fetch3 : String → Option Summary) (o : Instrument)
    (h1 : fetch1 o.instrument_name = some (Summary.withResult []))
    (h2 : fetch2 o.instrument_name = none)
    (h3 : fetch3 o.instrument_name = some Summary.noResult) :
    (create_options_df fetch1 [o]).1
        = [⟨mkDataRow o emptyBookResult, "Neutral"⟩] ∧
      (mkDataRow o emptyBookResult).openInterest = none ∧
      (mkDataRow o emptyBookResult).ivChange = none ∧
      (mkDataRow o emptyBookResult).priceChange = none ∧
      (create_options_df fetch2 [o]).1 = [] ∧
      (create_options_df fetch3 [o]).1 = [] := by
  refine ⟨?_, rfl, rfl, rfl, ?_, ?_⟩
  · simp [create_options_df, collectRows, get_book_summary, h1,
      identify_all_none_neutral]
  · simp [create_options_df, collectRows, get_book_summary, h2]
  · simp [create_options_df, collectRows, get_book_summary, h3]

/-- Witness for C10 at a concrete instrument and the three oracle shapes. -/
theorem create_options_df_empty_result_neutral_witness :
    (create_options_df (fun _ => some (Summary.withResult [])) [instA]).1
        = [⟨mkDataRow instA emptyBookResult, "Neutral"⟩] ∧
      (mkDataRow instA emptyBookResult).openInterest = none ∧
      (mkDataRow instA emptyBookResult).ivChange = none ∧
      (mkDataRow instA emptyBookResult).priceChange = none ∧
      (create_options_df (fun _ => none) [instA]).1 = [] ∧
      (create_options_df (fun _ => some Summary.noResult) [instA]).1 = [] :=
  create_options_df_empty_result_neutral
    (fun _ => some (Summary.withResult [])) (fun _ => none)
    (fun _ => some Summary.noResult) instA rfl rfl rfl

end ClaimTheorems

end StreamBtc
